import Mathlib

/-!
Verification development for the group-message storage/API layer
(`common/db_utils.py` and `api/message_api.py`).

The embedding models the SQLite table `group_messages` as a list of rows,
the write path `DatabaseManager.save_message` as a state transition on that
list, and the three read operations (`get_messages`, `get_groups`,
`get_message_by_id`) as pure functions over it, following the SQL semantics
of filtering, `ORDER BY create_time DESC`, `LIMIT`/`OFFSET`, and
`GROUP BY group_id, group_name`.
-/

namespace MsgStore

/-- A persisted row of the `group_messages` table, in column order
`(id, msg_id, group_id, group_name, sender_id, sender_name, content,
msg_type, create_time, created_at)`. `create_time` is a signed integer
(epoch seconds); `created_at` is the store-assigned timestamp text. -/
structure Row where
  id : Nat
  msg_id : String
  group_id : String
  group_name : String
  sender_id : String
  sender_name : String
  content : String
  msg_type : String
  create_time : Int
  created_at : String
  deriving DecidableEq, Repr

/-- The store: the rows of `group_messages` in insertion (rowid) order. -/
abbrev Store := List Row

/-- The `message_data` dict passed to `DatabaseManager.save_message`:
every inserted column except the auto-assigned `id` and `created_at`. -/
structure MessageData where
  msg_id : String
  group_id : String
  group_name : String
  sender_id : String
  sender_name : String
  content : String
  msg_type : String
  create_time : Int
  deriving DecidableEq, Repr

/-- Whether some stored row already uses this `msg_id`; the `UNIQUE`
constraint on the `msg_id` column makes the INSERT fail with
`sqlite3.IntegrityError` exactly in this case. -/
def msgIdExists (store : Store) (mid : String) : Bool :=
  store.any (fun r => r.msg_id == mid)

/-- The next `AUTOINCREMENT` value for the `id` column: one larger than
any id present. -/
def nextId (store : Store) : Nat :=
  store.foldr (fun r m => max (r.id + 1) m) 1

/-- The row built by the INSERT in `save_message`: the eight supplied
columns, plus the auto-assigned `id` and the `created_at` default
(`CURRENT_TIMESTAMP`, passed here as `now`). -/
def insertRow (store : Store) (d : MessageData) (now : String) : Store :=
  store ++ [{ id := nextId store, msg_id := d.msg_id, group_id := d.group_id,
              group_name := d.group_name, sender_id := d.sender_id,
              sender_name := d.sender_name, content := d.content,
              msg_type := d.msg_type, create_time := d.create_time,
              created_at := now }]

/-- How a call to `DatabaseManager.save_message` ends for its caller:
it either returns normally or lets an exception propagate. -/
inductive SaveResult where
  | returned
  | raised
  deriving DecidableEq, Repr

/-- `DatabaseManager.save_message(message_data)` as a state transition.
`fault` injects an environmental failure of the INSERT (I/O error, disk
full, ...), i.e. any exception other than the `IntegrityError` produced by
a duplicate `msg_id`.
- fault: the generic `except Exception` clause logs, rolls the transaction
  back (the failed INSERT leaves no row) and re-raises;
- duplicate `msg_id`: `except sqlite3.IntegrityError` logs the duplicate
  and returns normally; the failed INSERT statement has no effect;
- otherwise the row is inserted and committed. -/
def saveMessage (fault : Bool) (now : String) (store : Store) (d : MessageData) :
    SaveResult × Store :=
  if fault then (.raised, store)
  else if msgIdExists store d.msg_id then (.returned, store)
  else (.returned, insertRow store d now)

/-- `save_group_message(message_data)`, the module-level wrapper: it calls
`DatabaseManager().save_message` inside `try/except Exception` that only
logs, so it never lets the exception reach its own caller. -/
def saveGroupMessage (fault : Bool) (now : String) (store : Store) (d : MessageData) :
    SaveResult × Store :=
  (SaveResult.returned, (saveMessage fault now store d).2)

/-- Events the body of `save_message` performs, in order, at the
lock/transaction level. -/
inductive DbEvent where
  | acquireLock
  | execInsert
  | commitTxn
  | releaseLock
  | logDuplicate
  | logError
  | rollbackTxn
  | raiseToCaller
  deriving DecidableEq, Repr

/-- The three ways one call to `save_message` can go. -/
inductive SaveOutcome where
  | success
  | duplicate
  | otherFailure
  deriving DecidableEq, Repr

/-- The event trace of `save_message` for each outcome, read off the
code's block structure. The `try:` wraps `with self._lock:` which contains
only the `execute` and the `commit`; the `except` clauses stand outside
the `with`, so when `execute` raises, the context manager releases the
lock while the exception unwinds, and only then does the matching `except`
clause run. Hence on `IntegrityError` the lock is released before the
duplicate is logged (and nothing is committed or rolled back), and on any
other exception the lock is released before `conn.rollback()` and the
re-raise. -/
def saveMessageTrace : SaveOutcome → List DbEvent
  | .success => [.acquireLock, .execInsert, .commitTxn, .releaseLock]
  | .duplicate => [.acquireLock, .execInsert, .releaseLock, .logDuplicate]
  | .otherFailure =>
      [.acquireLock, .execInsert, .releaseLock, .logError, .rollbackTxn, .raiseToCaller]

/-- `occursBefore l a b` holds when `a` appears in `l` strictly before the
first occurrence of `b`. -/
def occursBefore (l : List DbEvent) (a b : DbEvent) : Bool :=
  (l.takeWhile (fun e => e != b)).contains a

/-- The optional query parameters of `GET /messages/` (each `None` when
the client omits it). -/
structure Filters where
  group_id : Option String
  sender_id : Option String
  start_time : Option Int
  end_time : Option Int
  msg_type : Option String
  deriving DecidableEq, Repr

/-- A `Filters` value with nothing supplied. -/
def noFilters : Filters :=
  { group_id := none, sender_id := none, start_time := none, end_time := none,
    msg_type := none }

/-- Python truthiness of an optional string parameter: `if group_id:` is
taken only when the value is present and non-empty. -/
def truthyStr : Option String → Bool
  | none => false
  | some s => !(s == "")

/-- Python truthiness of an optional integer parameter: `if start_time:`
is taken only when the value is present and non-zero. -/
def truthyInt : Option Int → Bool
  | none => false
  | some t => !(t == 0)

/-- The `group_id = ?` condition: imposed only when the parameter is
truthy (`if group_id: conditions.append("group_id = ?")`). -/
def matchGroup (o : Option String) (r : Row) : Bool :=
  match o with
  | none => true
  | some g => if g == "" then true else r.group_id == g

/-- The `sender_id = ?` condition, truthiness-gated like `matchGroup`. -/
def matchSender (o : Option String) (r : Row) : Bool :=
  match o with
  | none => true
  | some s => if s == "" then true else r.sender_id == s

/-- The `create_time >= ?` condition, gated on `if start_time:` (so a
supplied `0` imposes nothing). -/
def matchStart (o : Option Int) (r : Row) : Bool :=
  match o with
  | none => true
  | some t => if t == 0 then true else decide (t ≤ r.create_time)

/-- The `create_time <= ?` condition, gated on `if end_time:`. -/
def matchEnd (o : Option Int) (r : Row) : Bool :=
  match o with
  | none => true
  | some t => if t == 0 then true else decide (r.create_time ≤ t)

/-- The `msg_type = ?` condition, truthiness-gated. -/
def matchType (o : Option String) (r : Row) : Bool :=
  match o with
  | none => true
  | some m => if m == "" then true else r.msg_type == m

/-- A row satisfies the assembled `WHERE` clause: the conjunction of the
appended conditions (an empty conjunction when nothing was appended). -/
def rowMatches (f : Filters) (r : Row) : Bool :=
  matchGroup f.group_id r && matchSender f.sender_id r && matchStart f.start_time r &&
    matchEnd f.end_time r && matchType f.msg_type r

/-- The condition fragments appended to `conditions` by `get_messages`,
in source order, one per truthy parameter. -/
def conditionFragments (f : Filters) : List String :=
  (if truthyStr f.group_id then ["group_id = ?"] else []) ++
    (if truthyStr f.sender_id then ["sender_id = ?"] else []) ++
    (if truthyInt f.start_time then ["create_time >= ?"] else []) ++
    (if truthyInt f.end_time then ["create_time <= ?"] else []) ++
    (if truthyStr f.msg_type then ["msg_type = ?"] else [])

/-- The SQL text assembled by `get_messages`: the fixed SELECT, a WHERE
clause joining the fragments with AND when any exist, and the fixed
ORDER BY / LIMIT / OFFSET tail. Filter values never enter this string;
they go into the parameter list. -/
def buildSql (f : Filters) : String :=
  "SELECT * FROM group_messages" ++
    (if conditionFragments f = [] then ""
     else " WHERE " ++ String.intercalate " AND " (conditionFragments f)) ++
    " ORDER BY create_time DESC LIMIT ? OFFSET ?"

/-- A bound SQL parameter. -/
inductive SqlParam where
  | s (v : String)
  | i (v : Int)
  deriving DecidableEq, Repr

/-- The bound-parameter list assembled by `get_messages`: one value per
truthy filter, in source order, then `limit` and `offset`. -/
def buildParams (f : Filters) (limit offset : Int) : List SqlParam :=
  ((if truthyStr f.group_id then [SqlParam.s (f.group_id.getD "")] else []) ++
    (if truthyStr f.sender_id then [SqlParam.s (f.sender_id.getD "")] else []) ++
    (if truthyInt f.start_time then [SqlParam.i (f.start_time.getD 0)] else []) ++
    (if truthyInt f.end_time then [SqlParam.i (f.end_time.getD 0)] else []) ++
    (if truthyStr f.msg_type then [SqlParam.s (f.msg_type.getD "")] else [])) ++
    [SqlParam.i limit, SqlParam.i offset]

/-- The `ORDER BY create_time DESC` order: `a` may precede `b` when
`a.create_time ≥ b.create_time`. -/
def rowLe (a b : Row) : Prop := b.create_time ≤ a.create_time

instance : DecidableRel rowLe := fun a b => by
  unfold rowLe
  infer_instance

instance : IsTotal Row rowLe := ⟨fun a b => le_total b.create_time a.create_time⟩

instance : IsTrans Row rowLe := ⟨fun _ _ _ h h2 => le_trans h2 h⟩

/-- Sorting of the selected rows by `create_time` descending (ties in an
engine-chosen order, modelled here by a stable sort). -/
def sortByCreateDesc (l : List Row) : List Row := List.insertionSort rowLe l

/-- SQLite `OFFSET`: skip that many leading rows; a negative offset is
treated as zero. -/
def applyOffset (rows : List Row) (offset : Int) : List Row :=
  rows.drop offset.toNat

/-- SQLite `LIMIT`: keep at most that many rows; a negative limit means
no upper bound. -/
def applyLimit (rows : List Row) (limit : Int) : List Row :=
  if limit < 0 then rows else rows.take limit.toNat

/-- The query run by `get_messages`: filter by the assembled WHERE clause,
order by `create_time` descending, then apply OFFSET and LIMIT. -/
def runQuery (store : Store) (f : Filters) (limit offset : Int) : List Row :=
  applyLimit (applyOffset (sortByCreateDesc (store.filter (rowMatches f))) offset) limit

/-- The `GET /messages/` endpoint. `limit` is declared as
`Query(default=50, le=100)`: FastAPI validates `limit ≤ 100` before the
handler body runs and answers 422 Unprocessable Entity when it fails —
the value is not clamped. A request that passes validation executes the
query and returns the page. -/
def getMessages (store : Store) (f : Filters) (limit offset : Int) :
    Except (Nat × String) (List Row) :=
  if 100 < limit then
    .error (422, "Input should be less than or equal to 100")
  else
    .ok (runQuery store f limit offset)

/-- The grouping key of `GROUP BY group_id, group_name`. -/
def rowKey (r : Row) : String × String := (r.group_id, r.group_name)

/-- The distinct `(group_id, group_name)` pairs among the stored rows. -/
def groupKeys (store : Store) : List (String × String) :=
  (store.map rowKey).dedup

/-- The stored rows carrying a given grouping key. -/
def rowsOfKey (store : Store) (p : String × String) : List Row :=
  store.filter (fun r => rowKey r == p)

/-- Maximum of a list of integers (`MAX(create_time)` over a group; the
group is never empty, the `0` default is unreachable). -/
def maxInt : List Int → Int
  | [] => 0
  | t :: ts => ts.foldl max t

/-- One aggregate row of the `GET /groups/` query:
`group_id, group_name, COUNT(*), MAX(create_time)`. -/
structure GroupRow where
  group_id : String
  group_name : String
  message_count : Nat
  last_active : Int
  deriving DecidableEq, Repr

/-- The aggregate row computed for one grouping key. -/
def groupRowOf (store : Store) (p : String × String) : GroupRow :=
  { group_id := p.1, group_name := p.2,
    message_count := (rowsOfKey store p).length,
    last_active := maxInt ((rowsOfKey store p).map Row.create_time) }

/-- The `ORDER BY last_active DESC` order on aggregate rows. -/
def grpLe (a b : GroupRow) : Prop := b.last_active ≤ a.last_active

instance : DecidableRel grpLe := fun a b => by
  unfold grpLe
  infer_instance

instance : IsTotal GroupRow grpLe := ⟨fun a b => le_total b.last_active a.last_active⟩

instance : IsTrans GroupRow grpLe := ⟨fun _ _ _ h h2 => le_trans h2 h⟩

/-- The `GET /groups/` query: one aggregate row per distinct
`(group_id, group_name)` pair, ordered by `last_active` descending. -/
def listGroups (store : Store) : List GroupRow :=
  List.insertionSort grpLe ((groupKeys store).map (groupRowOf store))

/-- A Python exception relevant to the handlers: FastAPI's
`HTTPException(status_code, detail)` (a subclass of `Exception`). -/
structure HttpExc where
  status : Nat
  detail : String
  deriving DecidableEq, Repr

/-- `str(e)` for an `HTTPException`: `"{status_code}: {detail}"`. -/
def httpExcStr (e : HttpExc) : String :=
  toString e.status ++ ": " ++ e.detail

/-- How an endpoint call ends at the HTTP layer: a value, or an
`HTTPException` carrying a status code and detail string. -/
inductive HandlerOutcome (α : Type) where
  | ok (value : α)
  | httpError (status : Nat) (detail : String)
  deriving DecidableEq, Repr

/-- `SELECT * FROM group_messages WHERE msg_id = ?` + `fetchone()`:
the first stored row with this `msg_id`, if any. -/
def findByMsgId (store : Store) (mid : String) : Option Row :=
  store.find? (fun r => r.msg_id == mid)

/-- The `try:` body of `get_message_by_id`: fetch the row; when none is
found, raise `HTTPException(404, "Message not found")`; otherwise return
the row's fields. -/
def getMessageByIdBody (store : Store) (mid : String) : Except HttpExc Row :=
  match findByMsgId store mid with
  | none => .error { status := 404, detail := "Message not found" }
  | some r => .ok r

/-- The whole `GET /messages/{msg_id}` handler. Its
`except Exception as e:` clause catches every exception the body raises —
including the handler's own `HTTPException(404)`, since `HTTPException`
subclasses `Exception` — and re-raises `HTTPException(500, str(e))`. -/
def getMessageById (store : Store) (mid : String) : HandlerOutcome Row :=
  match getMessageByIdBody store mid with
  | .ok r => .ok r
  | .error e => .httpError 500 (httpExcStr e)

/-- Which of the five optional parameters are truthy: the only thing the
assembled SQL text can depend on. -/
def truthyPattern (f : Filters) : Bool × Bool × Bool × Bool × Bool :=
  (truthyStr f.group_id, truthyStr f.sender_id, truthyInt f.start_time,
    truthyInt f.end_time, truthyStr f.msg_type)

/-- The spec-level reading of a row satisfying every supplied filter,
restricted to truthy values: exact match on `group_id`, `sender_id` and
`msg_type`, inclusive bounds on `create_time`. -/
def satisfiesSupplied (f : Filters) (r : Row) : Prop :=
  (∀ g, f.group_id = some g → g ≠ "" → r.group_id = g) ∧
    (∀ s, f.sender_id = some s → s ≠ "" → r.sender_id = s) ∧
    (∀ t, f.start_time = some t → t ≠ 0 → t ≤ r.create_time) ∧
    (∀ t, f.end_time = some t → t ≠ 0 → r.create_time ≤ t) ∧
    (∀ m, f.msg_type = some m → m ≠ "" → r.msg_type = m)

/-- What the aggregate listing promises of one of its rows: the count is
the number of stored messages with exactly that `(group_id, group_name)`
pair, and `last_active` is the greatest `create_time` among them (it is
one of them, and none exceeds it). -/
def groupRowSpec (store : Store) (gr : GroupRow) : Prop :=
  gr.message_count = (rowsOfKey store (gr.group_id, gr.group_name)).length ∧
    gr.last_active ∈ (rowsOfKey store (gr.group_id, gr.group_name)).map Row.create_time ∧
    (∀ t ∈ (rowsOfKey store (gr.group_id, gr.group_name)).map Row.create_time,
      t ≤ gr.last_active)

/-- A filter set supplying only `group_id = "g1"`. -/
def fG1 : Filters := { noFilters with group_id := some "g1" }

/-- A sample stored row (the spec's concrete scenario: message `m1` in
group `g1`/`Team` from Alice). -/
def rowA : Row :=
  { id := 1, msg_id := "m1", group_id := "g1", group_name := "Team",
    sender_id := "u1", sender_name := "Alice", content := "hi",
    msg_type := "text", create_time := 1000,
    created_at := "2024-01-01 00:00:00" }

/-- A second stored row in the same group, newer than `rowA`. -/
def rowB : Row :=
  { id := 2, msg_id := "m2", group_id := "g1", group_name := "Team",
    sender_id := "u2", sender_name := "Bob", content := "yo",
    msg_type := "text", create_time := 2000,
    created_at := "2024-01-01 00:10:00" }

/-- A stored row in a different group. -/
def rowC : Row :=
  { id := 3, msg_id := "m3", group_id := "g2", group_name := "Ops",
    sender_id := "u3", sender_name := "Carol", content := "hm",
    msg_type := "image", create_time := 1500,
    created_at := "2024-01-01 00:05:00" }

/-- A re-delivery of message `m1` with different content. -/
def dataA : MessageData :=
  { msg_id := "m1", group_id := "g1", group_name := "Team",
    sender_id := "u1", sender_name := "Alice", content := "changed",
    msg_type := "text", create_time := 3000 }

/-- A row of the 101-row store below; all rows share `create_time = 0`. -/
def mkRow (i : Nat) : Row :=
  { id := i + 1, msg_id := toString i, group_id := "g", group_name := "G",
    sender_id := "u", sender_name := "U", content := "c",
    msg_type := "text", create_time := 0, created_at := "t" }

/-- A store holding 101 rows. -/
def bigStore : Store := (List.range 101).map mkRow

end MsgStore

namespace MsgStore

theorem sublist_applyLimit (rows : List Row) (limit : Int) :
    List.Sublist (applyLimit rows limit) rows := by
  unfold applyLimit
  split
  · exact List.Sublist.refl rows
  · exact List.take_sublist _ rows

theorem sublist_applyOffset (rows : List Row) (offset : Int) :
    List.Sublist (applyOffset rows offset) rows :=
  List.drop_sublist _ rows

theorem mem_of_mem_runQuery {store : Store} {f : Filters} {limit offset : Int} {r : Row}
    (h : r ∈ runQuery store f limit offset) : r ∈ store ∧ rowMatches f r = true := by
  have h1 : r ∈ sortByCreateDesc (store.filter (rowMatches f)) :=
    (sublist_applyOffset _ offset).subset ((sublist_applyLimit _ limit).subset h)
  have h2 : r ∈ store.filter (rowMatches f) :=
    ((List.perm_insertionSort rowLe _).mem_iff).mp h1
  exact ⟨(List.mem_filter.mp h2).1, (List.mem_filter.mp h2).2⟩

theorem pairwise_runQuery (store : Store) (f : Filters) (limit offset : Int) :
    (runQuery store f limit offset).Pairwise rowLe := by
  have hs : (sortByCreateDesc (store.filter (rowMatches f))).Pairwise rowLe :=
    List.sorted_insertionSort rowLe _
  exact hs.sublist
    ((sublist_applyLimit _ limit).trans (sublist_applyOffset _ offset))

/-- C6: when the INSERT in `save_message` fails for any reason other than
the duplicate-`msg_id` `IntegrityError` (I/O error, disk full, another
constraint), the generic `except Exception` clause rolls the transaction
back — the store is exactly as before the call — and re-raises, so the
failure reaches the caller instead of being absorbed. -/
theorem save_message_fault_rolls_back_and_raises
    (store : Store) (d : MessageData) (now : String) :
    saveMessage true now store d = (SaveResult.raised, store) := by
  simp [saveMessage]

/-- C5, counterexample: for the non-duplicate failure outcome of
`save_message`, the rollback does not happen before the lock is released
(the `except` clause runs outside `with self._lock`), and no commit
happens before the release either; for the duplicate outcome the call
neither commits nor rolls back at all. So it is false that every call
commits fully or rolls back fully before releasing the lock. -/
theorem save_message_rollback_after_lock_release :
    occursBefore (saveMessageTrace SaveOutcome.otherFailure)
        DbEvent.rollbackTxn DbEvent.releaseLock = false ∧
      (saveMessageTrace SaveOutcome.otherFailure).contains DbEvent.rollbackTxn = true ∧
      occursBefore (saveMessageTrace SaveOutcome.otherFailure)
        DbEvent.commitTxn DbEvent.releaseLock = false ∧
      (saveMessageTrace SaveOutcome.duplicate).contains DbEvent.commitTxn = false ∧
      (saveMessageTrace SaveOutcome.duplicate).contains DbEvent.rollbackTxn = false := by
  decide

/-- C5, amended: a successful `save_message` commits before releasing the
lock; a non-duplicate failure releases the lock first and only then rolls
back and re-raises; a duplicate neither commits nor rolls back; and no
failed insert ever leaves a partial row — the store after a failed call is
exactly the store before it. -/
theorem save_message_atomicity_amended :
    occursBefore (saveMessageTrace SaveOutcome.success)
        DbEvent.commitTxn DbEvent.releaseLock = true ∧
      occursBefore (saveMessageTrace SaveOutcome.otherFailure)
        DbEvent.releaseLock DbEvent.rollbackTxn = true ∧
      (saveMessageTrace SaveOutcome.otherFailure).contains DbEvent.rollbackTxn = true ∧
      (saveMessageTrace SaveOutcome.duplicate).contains DbEvent.commitTxn = false ∧
      (saveMessageTrace SaveOutcome.duplicate).contains DbEvent.rollbackTxn = false ∧
      (∀ (store : Store) (d : MessageData) (now : String),
        (saveMessage true now store d).2 = store) := by
  refine ⟨by decide, by decide, by decide, by decide, by decide, ?_⟩
  intro store d now
  simp [saveMessage]

/-- C2: a second `save_message` call with an already-stored `msg_id` hits
the UNIQUE constraint, whose `IntegrityError` is caught and only logged:
the call returns normally and the store is unchanged, so it still holds
exactly one record with that identifier, with the originally stored
field values. -/
theorem save_message_duplicate_is_soft (store : Store) (d : MessageData) (now : String)
    (h : store.countP (fun r => r.msg_id == d.msg_id) = 1) :
    saveMessage false now store d = (SaveResult.returned, store) ∧
      (saveMessage false now store d).2.countP (fun r => r.msg_id == d.msg_id) = 1 := by
  have hex : msgIdExists store d.msg_id = true := by
    rw [msgIdExists, List.any_eq_true]
    have hpos : 0 < store.countP (fun r => r.msg_id == d.msg_id) := by omega
    exact List.countP_pos_iff.mp hpos
  refine ⟨?_, ?_⟩ <;> simp [saveMessage, hex, h]

theorem save_message_duplicate_is_soft_witness :
    saveMessage false "now" [rowA] dataA = (SaveResult.returned, [rowA]) ∧
      (saveMessage false "now" [rowA] dataA).2.countP
        (fun r => r.msg_id == dataA.msg_id) = 1 :=
  save_message_duplicate_is_soft [rowA] dataA "now" (by decide)

/-- C1: `get_message_by_id` raises `HTTPException(404)` for an unknown
identifier inside its own `try:`, but the handler's
`except Exception as e:` catches that very exception (FastAPI's
`HTTPException` subclasses `Exception`) and re-raises
`HTTPException(500, str(e))`, so the unknown-identifier outcome is the
generic 500, not the 404 the code itself meant to produce; a known
identifier does return the stored row's fields unchanged. -/
theorem get_message_unknown_id_yields_500 :
    getMessageById ([] : Store) "m1" =
        HandlerOutcome.httpError 500 "404: Message not found" ∧
      getMessageById [rowA] "m1" = HandlerOutcome.ok rowA := by
  constructor <;> rfl

theorem run_query_filter_congr {f g : Filters}
    (h : ∀ r, rowMatches f r = rowMatches g r) (store : Store) (limit offset : Int) :
    runQuery store f limit offset = runQuery store g limit offset := by
  unfold runQuery
  rw [List.filter_congr (fun a _ => h a)]

/-- C10: a falsy filter value — the empty string for `group_id`,
`sender_id` or `msg_type`, zero for `start_time` or `end_time` — fails
the `if` truthiness test, so its condition is never appended: the query
result is exactly the one with that filter omitted, and in particular no
record with an empty-string field is selected by an empty-string
exact-match filter. -/
theorem falsy_filter_same_as_omitted (store : Store) (f : Filters) (limit offset : Int) :
    runQuery store { f with group_id := some "" } limit offset =
        runQuery store { f with group_id := none } limit offset ∧
      runQuery store { f with sender_id := some "" } limit offset =
        runQuery store { f with sender_id := none } limit offset ∧
      runQuery store { f with start_time := some 0 } limit offset =
        runQuery store { f with start_time := none } limit offset ∧
      runQuery store { f with end_time := some 0 } limit offset =
        runQuery store { f with end_time := none } limit offset ∧
      runQuery store { f with msg_type := some "" } limit offset =
        runQuery store { f with msg_type := none } limit offset := by
  refine ⟨?_, ?_, ?_, ?_, ?_⟩ <;>
    · apply run_query_filter_congr (fun r => ?_)
      simp [rowMatches, matchGroup, matchSender, matchStart, matchEnd, matchType]

/-- C3, counterexample: a request with `limit = 101` is answered with a
422 validation error — `Query(le=100)` rejects, it does not clamp — and
the request `limit = -1`, which passes the `le` validation, is served
with 101 rows, more than 100, because SQLite reads a negative LIMIT as
"no limit". -/
theorem limit_above_cap_rejected_not_clamped :
    getMessages ([] : Store) noFilters 101 0 =
        Except.error (422, "Input should be less than or equal to 100") ∧
      getMessages bigStore noFilters (-1) 0 =
        Except.ok (runQuery bigStore noFilters (-1) 0) ∧
      (runQuery bigStore noFilters (-1) 0).length = 101 := by
  refine ⟨rfl, rfl, ?_⟩
  rfl

/-- C3, amended: a requested limit above 100 makes `get_messages` answer
a 422 validation error instead of serving the request; every request that
is served with a nonnegative limit returns at most 100 rows. -/
theorem get_messages_limit_behavior (store : Store) (f : Filters) (limit offset : Int) :
    (100 < limit → getMessages store f limit offset =
        Except.error (422, "Input should be less than or equal to 100")) ∧
      (0 ≤ limit → ∀ rows, getMessages store f limit offset = Except.ok rows →
        rows.length ≤ 100) := by
  constructor
  · intro hgt
    simp [getMessages, hgt]
  · intro hge rows hok
    by_cases hgt : 100 < limit
    · simp [getMessages, hgt] at hok
    · have hok2 : runQuery store f limit offset = rows := by
        simpa [getMessages, hgt] using hok
      have hnneg : ¬limit < 0 := by omega
      have htake : rows =
          (applyOffset (sortByCreateDesc (store.filter (rowMatches f))) offset).take
            limit.toNat := by
        rw [← hok2]
        unfold runQuery applyLimit
        simp [hnneg]
      have hlen : rows.length ≤ limit.toNat := by
        rw [htake]
        exact List.length_take_le _ _
      have hcap : limit.toNat ≤ 100 := by omega
      omega

/-- C7: every page the `get_messages` query returns is ordered by
`create_time` descending — for each pair of adjacent returned rows, the
later one's `create_time` is no greater than the earlier one's. -/
theorem run_query_sorted_desc (store : Store) (f : Filters) (limit offset : Int) :
    (runQuery store f limit offset).Chain' rowLe :=
  (pairwise_runQuery store f limit offset).chain'

/-- C9, counterexample: the two filter sets supplying exactly the same
subset of fields — `group_id` only, once with value `""` and once with
value `"g1"` — produce different SQL texts, because the empty string is
falsy and its condition is dropped. -/
theorem sql_text_depends_on_filter_value :
    ({ noFilters with group_id := some "" } : Filters).group_id.isSome =
        ({ noFilters with group_id := some "g1" } : Filters).group_id.isSome ∧
      ({ noFilters with group_id := some "" } : Filters).sender_id.isSome =
        ({ noFilters with group_id := some "g1" } : Filters).sender_id.isSome ∧
      ({ noFilters with group_id := some "" } : Filters).start_time.isSome =
        ({ noFilters with group_id := some "g1" } : Filters).start_time.isSome ∧
      ({ noFilters with group_id := some "" } : Filters).end_time.isSome =
        ({ noFilters with group_id := some "g1" } : Filters).end_time.isSome ∧
      ({ noFilters with group_id := some "" } : Filters).msg_type.isSome =
        ({ noFilters with group_id := some "g1" } : Filters).msg_type.isSome ∧
      buildSql { noFilters with group_id := some "" } ≠
        buildSql { noFilters with group_id := some "g1" } := by
  refine ⟨rfl, rfl, rfl, rfl, rfl, ?_⟩
  decide

/-- C9, amended: the SQL text depends only on which of the five
parameters are truthy, never on their values — the values travel only in
the bound-parameter list. Two calls whose filter sets are truthy in the
same positions build the identical query text. -/
theorem sql_text_value_independent (f1 f2 : Filters)
    (h : truthyPattern f1 = truthyPattern f2) : buildSql f1 = buildSql f2 := by
  simp only [truthyPattern, Prod.mk.injEq] at h
  obtain ⟨h1, h2, h3, h4, h5⟩ := h
  unfold buildSql conditionFragments
  rw [h1, h2, h3, h4, h5]

theorem sql_text_value_independent_witness :
    buildSql { noFilters with group_id := some "a" } =
      buildSql { noFilters with group_id := some "b" } :=
  sql_text_value_independent _ _ (by decide)

/-- C4, counterexample: the filter set supplying `group_id = ""` returns
the store's only row even though that row's `group_id` (`"g1"`) does not
equal the supplied exact-match value — the empty string is falsy, so the
condition is silently dropped rather than applied. -/
theorem returned_row_violates_supplied_filter :
    runQuery [rowA] { noFilters with group_id := some "" } 50 0 = [rowA] ∧
      rowA.group_id ≠ "" := by
  refine ⟨rfl, by decide⟩

/-- C4, amended: every record the query returns satisfies every supplied
truthy filter simultaneously (exact match on `group_id`, `sender_id`,
`msg_type`; `create_time` within the inclusive bounds); a filter supplied
with a falsy value (empty string, zero) imposes no constraint; and
omitting any one filter never excludes a record on the basis of that
field — a row passing the WHERE clause still passes it with that filter
omitted. -/
theorem returned_rows_satisfy_filters (f : Filters) (store : Store)
    (limit offset : Int) (r : Row) (h : r ∈ runQuery store f limit offset) :
    satisfiesSupplied f r ∧
      (∀ r2 : Row, rowMatches f r2 = true →
        (rowMatches { f with group_id := none } r2 = true ∧
          rowMatches { f with sender_id := none } r2 = true ∧
          rowMatches { f with start_time := none } r2 = true ∧
          rowMatches { f with end_time := none } r2 = true ∧
          rowMatches { f with msg_type := none } r2 = true)) := by
  have hm : rowMatches f r = true := (mem_of_mem_runQuery h).2
  simp only [rowMatches, Bool.and_eq_true] at hm
  obtain ⟨⟨⟨⟨hg, hs⟩, hst⟩, he⟩, ht⟩ := hm
  constructor
  · refine ⟨?_, ?_, ?_, ?_, ?_⟩
    · intro g hgeq hne
      rw [hgeq] at hg
      simp only [matchGroup] at hg
      rw [if_neg (by simp [hne])] at hg
      exact (eq_of_beq hg)
    · intro s hseq hne
      rw [hseq] at hs
      simp only [matchSender] at hs
      rw [if_neg (by simp [hne])] at hs
      exact (eq_of_beq hs)
    · intro t hteq hne
      rw [hteq] at hst
      simp only [matchStart] at hst
      rw [if_neg (by simp [hne])] at hst
      exact of_decide_eq_true hst
    · intro t hteq hne
      rw [hteq] at he
      simp only [matchEnd] at he
      rw [if_neg (by simp [hne])] at he
      exact of_decide_eq_true he
    · intro m hmeq hne
      rw [hmeq] at ht
      simp only [matchType] at ht
      rw [if_neg (by simp [hne])] at ht
      exact (eq_of_beq ht)
  · intro r2 h2
    simp only [rowMatches, Bool.and_eq_true] at h2
    obtain ⟨⟨⟨⟨hg2, hs2⟩, hst2⟩, he2⟩, ht2⟩ := h2
    refine ⟨?_, ?_, ?_, ?_, ?_⟩
    · simp [rowMatches, matchGroup, hs2, hst2, he2, ht2]
    · simp [rowMatches, matchSender, hg2, hst2, he2, ht2]
    · simp [rowMatches, matchStart, hg2, hs2, he2, ht2]
    · simp [rowMatches, matchEnd, hg2, hs2, hst2, ht2]
    · simp [rowMatches, matchType, hg2, hs2, hst2, he2]

theorem returned_rows_satisfy_filters_witness :
    satisfiesSupplied fG1 rowA ∧
      (∀ r2 : Row, rowMatches fG1 r2 = true →
        (rowMatches { fG1 with group_id := none } r2 = true ∧
          rowMatches { fG1 with sender_id := none } r2 = true ∧
          rowMatches { fG1 with start_time := none } r2 = true ∧
          rowMatches { fG1 with end_time := none } r2 = true ∧
          rowMatches { fG1 with msg_type := none } r2 = true)) :=
  returned_rows_satisfy_filters fG1 [rowA] 50 0 rowA (by decide)

theorem foldl_max_shape : ∀ (ts : List Int) (t : Int),
    ts.foldl max t = t ∨ ts.foldl max t ∈ ts := by
  intro ts
  induction ts with
  | nil => intro t; exact Or.inl rfl
  | cons a ts ih =>
    intro t
    rcases ih (max t a) with hl | hr
    · rcases max_choice t a with hc | hc
      · exact Or.inl (by rw [List.foldl_cons, hl, hc])
      · refine Or.inr ?_
        rw [List.foldl_cons, hl, hc]
        exact List.mem_cons_self a ts
    · exact Or.inr (List.mem_cons_of_mem a hr)

theorem le_foldl_max_init : ∀ (ts : List Int) (t : Int), t ≤ ts.foldl max t := by
  intro ts
  induction ts with
  | nil => intro t; exact le_refl t
  | cons a ts ih =>
    intro t
    calc t ≤ max t a := le_max_left t a
      _ ≤ (a :: ts).foldl max t := by rw [List.foldl_cons]; exact ih (max t a)

theorem le_foldl_max_mem : ∀ (ts : List Int) (t x : Int), x ∈ ts → x ≤ ts.foldl max t := by
  intro ts
  induction ts with
  | nil => intro t x hx; cases hx
  | cons a ts ih =>
    intro t x hx
    rw [List.foldl_cons]
    rcases List.mem_cons.mp hx with hxa | hxts
    · subst hxa
      calc x ≤ max t x := le_max_right t x
        _ ≤ ts.foldl max (max t x) := le_foldl_max_init ts (max t x)
    · exact ih (max t a) x hxts

theorem maxInt_mem (l : List Int) (h : l ≠ []) : maxInt l ∈ l := by
  cases l with
  | nil => exact absurd rfl h
  | cons t ts =>
    rcases foldl_max_shape ts t with hl | hr
    · rw [maxInt, hl]; exact List.mem_cons_self t ts
    · rw [maxInt]; exact List.mem_cons_of_mem t hr

theorem le_maxInt (l : List Int) (x : Int) (h : x ∈ l) : x ≤ maxInt l := by
  cases l with
  | nil => cases h
  | cons t ts =>
    rcases List.mem_cons.mp h with hxa | hxts
    · subst hxa; exact le_foldl_max_init ts x
    · exact le_foldl_max_mem ts t x hxts

theorem map_key_map_groupRowOf (store : Store) :
    ∀ l : List (String × String),
      (l.map (groupRowOf store)).map (fun g => (g.group_id, g.group_name)) = l := by
  intro l
  induction l with
  | nil => rfl
  | cons p ps ih => simp [groupRowOf, ih]

/-- C8: every row of the `get_groups` aggregate listing carries the exact
count of stored messages with its `(group_id, group_name)` pair and the
maximum `create_time` among them; the listing holds exactly one row per
distinct pair occurring in the store; and its rows are ordered by
`last_active` descending. -/
theorem list_groups_aggregates_correct (store : Store) (gr : GroupRow)
    (h : gr ∈ listGroups store) :
    groupRowSpec store gr ∧
      ((listGroups store).map (fun g => (g.group_id, g.group_name))).Nodup ∧
      (∀ p : String × String,
        p ∈ (listGroups store).map (fun g => (g.group_id, g.group_name)) ↔
          p ∈ store.map rowKey) ∧
      (listGroups store).Chain' grpLe := by
  have hperm : List.Perm (listGroups store) ((groupKeys store).map (groupRowOf store)) :=
    List.perm_insertionSort grpLe _
  have hmapperm :
      List.Perm ((listGroups store).map (fun g => (g.group_id, g.group_name)))
        (groupKeys store) := by
    have := hperm.map (fun g : GroupRow => (g.group_id, g.group_name))
    rwa [map_key_map_groupRowOf store (groupKeys store)] at this
  refine ⟨?_, ?_, ?_, ?_⟩
  · obtain ⟨p, hp, hgr⟩ := List.mem_map.mp (hperm.mem_iff.mp h)
    subst hgr
    have hkeyp : ((groupRowOf store p).group_id, (groupRowOf store p).group_name) = p := by
      simp [groupRowOf]
    have hpmem : p ∈ store.map rowKey := List.mem_dedup.mp hp
    obtain ⟨r, hr, hrk⟩ := List.mem_map.mp hpmem
    have hrmem : r ∈ rowsOfKey store p :=
      List.mem_filter.mpr ⟨hr, by simp [hrk]⟩
    have hne : (rowsOfKey store p).map Row.create_time ≠ [] := by
      intro hnil
      have hmm : r.create_time ∈ (rowsOfKey store p).map Row.create_time :=
        List.mem_map_of_mem Row.create_time hrmem
      rw [hnil] at hmm
      cases hmm
    refine ⟨?_, ?_, ?_⟩
    · rw [hkeyp]; rfl
    · rw [hkeyp]
      exact maxInt_mem _ hne
    · rw [hkeyp]
      intro t htm
      exact le_maxInt _ t htm
  · exact hmapperm.nodup_iff.mpr (List.nodup_dedup _)
  · intro p
    rw [hmapperm.mem_iff]
    exact List.mem_dedup
  · exact (List.sorted_insertionSort grpLe _).chain'

theorem list_groups_aggregates_correct_witness :
    groupRowSpec [rowA, rowB, rowC] (groupRowOf [rowA, rowB, rowC] ("g1", "Team")) ∧
      ((listGroups [rowA, rowB, rowC]).map (fun g => (g.group_id, g.group_name))).Nodup ∧
      (∀ p : String × String,
        p ∈ (listGroups [rowA, rowB, rowC]).map (fun g => (g.group_id, g.group_name)) ↔
          p ∈ ([rowA, rowB, rowC] : Store).map rowKey) ∧
      (listGroups [rowA, rowB, rowC]).Chain' grpLe :=
  list_groups_aggregates_correct [rowA, rowB, rowC]
    (groupRowOf [rowA, rowB, rowC] ("g1", "Team")) (by decide)

end MsgStore
